import Mathlib

/-!
Verification of the Finger Prince presentation layer and of the
spec-level pipeline contracts.

The TypeScript sources under apps/shared, apps/web and apps/electron are
embedded shallowly: React state hooks become explicit state types with
transition functions, the fetch payloads become a small JSON model, and
the Electron sidecar manager becomes a state machine over process events.
Backend components that exist only behind the REST boundary (the crawl
orchestrator, the persona synthesizer) are modelled from the spec where a
claim needs them; each such definition is marked in its doc comment.
-/

namespace FingerPrince

/-! Part 1: a small JSON model for the wire payloads built by the hooks. -/

/-- Shallow JSON value model. Object fields keep insertion order, the
order in which JSON.stringify serializes an object literal. -/
inductive Json where
  | null : Json
  | bool (b : Bool) : Json
  | num (n : Int) : Json
  | str (s : String) : Json
  | arr (xs : List Json) : Json
  | obj (fields : List (String × Json)) : Json

/-- Field names of a JSON object, in serialization order. -/
def Json.fieldNames : Json → List String
  | .obj fs => fs.map Prod.fst
  | _ => []

/-! Part 2: data model from apps/shared/components. -/

/-- Persona union type from DCComment.tsx line 4. -/
inductive Persona where
  | aggressive_helper
  | fact_checker
  | meme_lord
  | helpful_sunbae
deriving DecidableEq

/-- Value type of the PERSONA_META table in DCComment.tsx. -/
structure PersonaMeta where
  label : String
  colorClass : String
deriving DecidableEq

/-- PERSONA_META table from DCComment.tsx lines 6 to 11. -/
def PERSONA_META : Persona → PersonaMeta
  | .aggressive_helper => { label := "빡친도우미", colorClass := "bg-red-600 text-white" }
  | .fact_checker => { label := "팩트체커", colorClass := "bg-blue-600 text-white" }
  | .meme_lord => { label := "밈왕", colorClass := "bg-purple-600 text-white" }
  | .helpful_sunbae => { label := "개념글봇", colorClass := "bg-green-600 text-white" }

/-- Modelled from the spec: the PersonaSynthesizer persona selection
(section 4.6); the backend engine code is not under src. If no persona is
supplied, the default helpful_sunbae is used. -/
def synthPersona (requested : Option Persona) : Persona :=
  requested.getD Persona.helpful_sunbae

/-- CommentData record from DCComment.tsx, a tree of comments. -/
inductive CommentData where
  | mk (id author text date : String) (persona : Option Persona)
       (replies : List CommentData) (isAI : Bool)

/-- PostData record from DCPost.tsx. The relevance score is a rational
in place of the JS number. -/
structure PostData where
  id : String
  gallId : String
  title : String
  body : String
  author : String
  date : String
  views : Int
  upvotes : Int
  score : Option Rat
  comments : List CommentData
  sourceUrl : Option String

/-! Part 3: the useSearch hook from apps/shared/hooks/useSearch.ts. -/

/-- SmartSearchResult record from useSearch.ts lines 4 to 14 (RAGResult
plus the discovery fields), camelCase client shape. -/
structure SmartSearchResult where
  posts : List PostData
  synthesizedAnswer : Option String
  persona : String
  queryTime : Int
  discoveredGalls : List String
  postsCrawled : Int

/-- Wire shape of the smart-search response per the section 6 boundary
contract. The two count fields are optional because the hook guards
them with a nullish-coalescing default. -/
structure SmartSearchWire where
  posts : List PostData
  synthesized_answer : Option String
  persona : String
  query_time : Int
  discovered_galls : Option (List String)
  posts_crawled : Option Int

/-- An outbound HTTP request as assembled by fetch in the hooks. -/
structure HttpRequest where
  method : String
  url : String
  body : Json

/-- Request built by useSearch.search, useSearch.ts lines 49 to 58:
POST to apiBase/smart-search with the four body fields in order. -/
def smartSearchRequest (apiBase query : String) (topK : Int) : HttpRequest :=
  { method := "POST"
    url := apiBase ++ "/smart-search"
    body := Json.obj
      [("query", Json.str query),
       ("top_k", Json.num topK),
       ("google_results", Json.num 10),
       ("gallery_pages", Json.num 2)] }

/-- Response mapping of useSearch.search, useSearch.ts lines 66 to 75:
snake case wire fields onto the camelCase SmartSearchResult, with the
nullish defaults for discovered_galls and posts_crawled. -/
def mapSmartSearchResponse (json : SmartSearchWire) : SmartSearchResult :=
  { posts := json.posts
    synthesizedAnswer := json.synthesized_answer
    persona := json.persona
    queryTime := json.query_time
    discoveredGalls := json.discovered_galls.getD []
    postsCrawled := json.posts_crawled.getD 0 }

/-- SearchState record of the useSearch hook. -/
structure SearchState where
  data : Option SmartSearchResult
  isLoading : Bool
  error : Option String

/-- Initial hook state, useSearch.ts lines 28 to 32. -/
def initialSearchState : SearchState :=
  { data := none, isLoading := false, error := none }

/-- State set at the start of a search, useSearch.ts line 38. -/
def searchLoadingState : SearchState :=
  { data := none, isLoading := true, error := none }

/-- Outcome of the asynchronous part of useSearch.search: Electron
bridge success, REST success, non-ok HTTP response, or a thrown error. -/
inductive SearchOutcome where
  | bridgeOk (result : SmartSearchResult)
  | restOk (wire : SmartSearchWire)
  | httpError (status : Int) (respBody : String)
  | thrown (msg : String)

/-- Error message built at useSearch.ts line 62. -/
def searchErrorMessage (status : Int) (respBody : String) : String :=
  "검색 실패 (" ++ toString status ++ "): " ++ respBody

/-- Final hook state for each outcome, useSearch.ts lines 40 to 84. -/
def searchFinish : SearchOutcome → SearchState
  | .bridgeOk r => { data := some r, isLoading := false, error := none }
  | .restOk wire =>
      { data := some (mapSmartSearchResponse wire), isLoading := false, error := none }
  | .httpError st b =>
      { data := none, isLoading := false, error := some (searchErrorMessage st b) }
  | .thrown msg => { data := none, isLoading := false, error := some msg }

/-! Part 4: the useCrawl hook from apps/shared/hooks/useCrawl.ts. -/

/-- CrawlStatus union type from useCrawl.ts line 3. -/
inductive CrawlStatus where
  | idle
  | running
  | done
  | error
deriving DecidableEq

/-- CrawlState record of the useCrawl hook, useCrawl.ts lines 5 to 10. -/
structure CrawlState where
  status : CrawlStatus
  message : String
  postsIndexed : Int
  error : Option String
deriving DecidableEq

/-- Initial hook state, useCrawl.ts lines 17 to 22; reset restores it. -/
def initialCrawlState : CrawlState :=
  { status := .idle, message := "", postsIndexed := 0, error := none }

/-- State set at the start of a crawl, useCrawl.ts line 28. -/
def crawlRunningState : CrawlState :=
  { status := .running, message := "크롤링 시작...", postsIndexed := 0, error := none }

/-- Wire shape of the crawl response, useCrawl.ts line 55. -/
structure CrawlWire where
  posts_indexed : Int
  message : String
deriving DecidableEq

/-- Fields the hook reads back from the crawl response. -/
structure CrawlResult where
  postsIndexed : Int
  message : String
deriving DecidableEq

/-- Response mapping of useCrawl.startCrawl, useCrawl.ts lines 55 to 61. -/
def mapCrawlResponse (json : CrawlWire) : CrawlResult :=
  { postsIndexed := json.posts_indexed, message := json.message }

/-- Request built by useCrawl.startCrawl, useCrawl.ts lines 44 to 48:
POST to apiBase/crawl with the two body fields in order. -/
def crawlRequest (apiBase gallId : String) (maxPages : Int) : HttpRequest :=
  { method := "POST"
    url := apiBase ++ "/crawl"
    body := Json.obj
      [("gall_id", Json.str gallId),
       ("max_pages", Json.num maxPages)] }

/-- Outcome of the asynchronous part of useCrawl.startCrawl. -/
inductive CrawlOutcome where
  | bridgeOk (postsIndexed : Int)
  | restOk (wire : CrawlWire)
  | httpError (status : Int) (respBody : String)
  | thrown (msg : String)

/-- Completion message built at useCrawl.ts line 36 on the bridge path. -/
def bridgeDoneMessage (n : Int) : String :=
  "완료: " ++ toString n ++ "개 게시물 인덱싱"

/-- Error message built at useCrawl.ts line 52. -/
def crawlErrorMessage (status : Int) (respBody : String) : String :=
  "Crawl failed (" ++ toString status ++ "): " ++ respBody

/-- Final hook state for each outcome, useCrawl.ts lines 30 to 69. Both
success paths end done, both failure paths end error. -/
def crawlFinish : CrawlOutcome → CrawlState
  | .bridgeOk n =>
      { status := .done, message := bridgeDoneMessage n, postsIndexed := n, error := none }
  | .restOk w =>
      { status := .done, message := w.message, postsIndexed := w.posts_indexed, error := none }
  | .httpError st b =>
      { status := .error, message := "", postsIndexed := 0,
        error := some (crawlErrorMessage st b) }
  | .thrown m =>
      { status := .error, message := "", postsIndexed := 0, error := some m }

/-- Truthiness test of the trimmed string guarding both hooks (useCrawl.ts
line 26, useSearch.ts line 36): the trimmed string is empty exactly when
every character is whitespace, so the guard is a dropWhile on the
character list. -/
def trimmedEmpty (s : String) : Bool :=
  (s.data.dropWhile Char.isWhitespace).isEmpty

/-- Sequence of states an invocation of startCrawl drives the hook
through, useCrawl.ts lines 24 to 72: an early return leaves the state
alone when the gallery id is blank, otherwise the running state is set
and then the outcome state. -/
def startCrawlTrace (st : CrawlState) (gallId : String) (outcome : CrawlOutcome) :
    List CrawlState :=
  if trimmedEmpty gallId then [st]
  else [st, crawlRunningState, crawlFinish outcome]

/-- Reset, useCrawl.ts lines 74 to 76. -/
def resetCrawl : CrawlState := initialCrawlState

/-! Theorems for claims C1 and C2. -/

/-- C1: the web transport adapter sends and receives exactly the field
names of the section 6 boundary contract: useSearch issues POST to
apiBase/smart-search with precisely the body fields query, top_k,
google_results and gallery_pages, and maps the response fields onto
SmartSearchResult; useCrawl issues POST to apiBase/crawl with body
fields gall_id and max_pages and reads back posts_indexed and message. -/
theorem transport_field_names
    (apiBase query gallId : String) (topK maxPages : Int)
    (wire : SmartSearchWire) (cwire : CrawlWire) :
    (smartSearchRequest apiBase query topK).method = "POST" ∧
    (smartSearchRequest apiBase query topK).url = apiBase ++ "/smart-search" ∧
    (smartSearchRequest apiBase query topK).body.fieldNames =
      ["query", "top_k", "google_results", "gallery_pages"] ∧
    (crawlRequest apiBase gallId maxPages).method = "POST" ∧
    (crawlRequest apiBase gallId maxPages).url = apiBase ++ "/crawl" ∧
    (crawlRequest apiBase gallId maxPages).body.fieldNames = ["gall_id", "max_pages"] ∧
    (mapSmartSearchResponse wire).posts = wire.posts ∧
    (mapSmartSearchResponse wire).synthesizedAnswer = wire.synthesized_answer ∧
    (mapSmartSearchResponse wire).persona = wire.persona ∧
    (mapSmartSearchResponse wire).queryTime = wire.query_time ∧
    (mapSmartSearchResponse wire).discoveredGalls = wire.discovered_galls.getD [] ∧
    (mapSmartSearchResponse wire).postsCrawled = wire.posts_crawled.getD 0 ∧
    (mapCrawlResponse cwire).postsIndexed = cwire.posts_indexed ∧
    (mapCrawlResponse cwire).message = cwire.message :=
  ⟨rfl, rfl, rfl, rfl, rfl, rfl, rfl, rfl, rfl, rfl, rfl, rfl, rfl, rfl⟩

/-- C2: the persona is a closed enumeration of exactly four identifiers
mapped to the fixed PERSONA_META style table, and when no persona is
requested the default helpful_sunbae is applied; no fifth persona value
is representable. -/
theorem persona_closed_enum :
    (∀ p : Persona, p = Persona.aggressive_helper ∨ p = Persona.fact_checker ∨
      p = Persona.meme_lord ∨ p = Persona.helpful_sunbae) ∧
    synthPersona none = Persona.helpful_sunbae ∧
    (∀ p : Persona, synthPersona (some p) = p) ∧
    PERSONA_META Persona.aggressive_helper =
      { label := "빡친도우미", colorClass := "bg-red-600 text-white" } ∧
    PERSONA_META Persona.fact_checker =
      { label := "팩트체커", colorClass := "bg-blue-600 text-white" } ∧
    PERSONA_META Persona.meme_lord =
      { label := "밈왕", colorClass := "bg-purple-600 text-white" } ∧
    PERSONA_META Persona.helpful_sunbae =
      { label := "개념글봇", colorClass := "bg-green-600 text-white" } := by
  refine ⟨fun p => ?_, rfl, fun p => rfl, rfl, rfl, rfl, rfl⟩
  cases p
  · exact Or.inl rfl
  · exact Or.inr (Or.inl rfl)
  · exact Or.inr (Or.inr (Or.inl rfl))
  · exact Or.inr (Or.inr (Or.inr rfl))

/-! Part 5: spec-modelled crawl admission (the backend orchestrator is
behind the REST boundary and not under src). -/

/-- Crawl error taxonomy entries relevant to admission, spec section 7. -/
inductive CrawlError where
  | crawlAlreadyRunning
  | crawlUnreachable
deriving DecidableEq

/-- Modelled from the spec: the CrawlJobTracker jobs map (section 3);
idle is the default reported when no job exists for a gallery. The
backend tracker code is not under src. -/
structure JobTracker where
  jobs : String → CrawlStatus

/-- Modelled from the spec: CrawlOrchestrator admission (sections 4.2
and 5); a second crawl request for a gallery whose job is running is
rejected with CrawlAlreadyRunning, not queued; otherwise the job for
that gallery is created or overwritten as running. The backend
orchestrator code is not under src. -/
def requestCrawl (tr : JobTracker) (gallId : String) : Except CrawlError JobTracker :=
  if tr.jobs gallId = CrawlStatus.running then Except.error CrawlError.crawlAlreadyRunning
  else Except.ok { jobs := fun g => if g = gallId then CrawlStatus.running else tr.jobs g }

/-- Tracker state after an admission decision: a rejected request leaves
the tracker untouched. -/
def applyCrawlRequest (tr : JobTracker) (gallId : String) : JobTracker :=
  match requestCrawl tr gallId with
  | Except.ok tr2 => tr2
  | Except.error _ => tr

/-! Part 6: DCBoard rendering choice and the no-match search path. -/

/-- Which of the three bodies DCBoard renders. -/
inductive BoardView where
  | loading
  | empty
  | postList
deriving DecidableEq

/-- Rendering choice of DCBoard.tsx lines 33 to 46: loading skeleton
while loading, the empty state when there are no posts, else the list. -/
def boardView (posts : List PostData) (isLoading : Bool) : BoardView :=
  if isLoading then BoardView.loading
  else if posts.length = 0 then BoardView.empty
  else BoardView.postList

/-- Whether App.tsx lines 137 to 143 show the error banner. -/
def errorBannerShown (st : SearchState) : Bool := st.error.isSome

/-- Modelled from the spec: the wire response the SmartSearchOrchestrator
returns for a query that matches nothing indexed (sections 4.6, 4.7 and
8): an ok response with empty posts and a null synthesized answer, not
an error. The backend orchestrator code is not under src. -/
def noMatchWire (persona : String) (queryTime : Int) (galls : List String)
    (crawled : Int) : SmartSearchWire :=
  { posts := []
    synthesized_answer := none
    persona := persona
    query_time := queryTime
    discovered_galls := some galls
    posts_crawled := some crawled }

/-! Theorems for claims C3 to C6. -/

/-- C3: the crawl status is a four-state machine over idle, running,
done and error; an invocation of startCrawl from idle with a nonblank
gallery id passes through running and ends done on any completed
response (even a partial-success message) and error exactly on the
failure outcomes; reset returns the state to idle. -/
theorem crawl_status_machine (st : CrawlState) (gallId : String)
    (outcome : CrawlOutcome) (_hidle : st.status = CrawlStatus.idle)
    (hne : trimmedEmpty gallId = false) :
    startCrawlTrace st gallId outcome = [st, crawlRunningState, crawlFinish outcome] ∧
    crawlRunningState.status = CrawlStatus.running ∧
    (∀ n, (crawlFinish (CrawlOutcome.bridgeOk n)).status = CrawlStatus.done) ∧
    (∀ w, (crawlFinish (CrawlOutcome.restOk w)).status = CrawlStatus.done) ∧
    (∀ s b, (crawlFinish (CrawlOutcome.httpError s b)).status = CrawlStatus.error) ∧
    (∀ m, (crawlFinish (CrawlOutcome.thrown m)).status = CrawlStatus.error) ∧
    resetCrawl.status = CrawlStatus.idle ∧
    (∀ s : CrawlStatus, s = CrawlStatus.idle ∨ s = CrawlStatus.running ∨
      s = CrawlStatus.done ∨ s = CrawlStatus.error) := by
  refine ⟨by simp [startCrawlTrace, hne], rfl, fun n => rfl, fun w => rfl,
    fun s b => rfl, fun m => rfl, rfl, fun s => ?_⟩
  cases s
  · exact Or.inl rfl
  · exact Or.inr (Or.inl rfl)
  · exact Or.inr (Or.inr (Or.inl rfl))
  · exact Or.inr (Or.inr (Or.inr rfl))

/-- Witness for crawl_status_machine at a concrete idle state, gallery
id and outcome. -/
theorem crawl_status_machine_witness :
    startCrawlTrace initialCrawlState "programming" (CrawlOutcome.restOk ⟨3, "ok"⟩) =
      [initialCrawlState, crawlRunningState, crawlFinish (CrawlOutcome.restOk ⟨3, "ok"⟩)] :=
  (crawl_status_machine initialCrawlState "programming" (CrawlOutcome.restOk ⟨3, "ok"⟩)
    rfl (by decide)).1

/-- C4: a crawl request for a gallery whose job is running is rejected
with CrawlAlreadyRunning, and the rejected request leaves every entry of
the job tracker unchanged: nothing is queued and the running job is not
overwritten. -/
theorem crawl_already_running_rejected (tr : JobTracker) (gallId : String)
    (h : tr.jobs gallId = CrawlStatus.running) :
    requestCrawl tr gallId = Except.error CrawlError.crawlAlreadyRunning ∧
    (∀ g, (applyCrawlRequest tr gallId).jobs g = tr.jobs g) := by
  constructor
  · simp [requestCrawl, h]
  · intro g
    simp [applyCrawlRequest, requestCrawl, h]

/-- Witness for crawl_already_running_rejected at an all-running
tracker. -/
theorem crawl_already_running_rejected_witness :
    requestCrawl ⟨fun _ => CrawlStatus.running⟩ "programming" =
      Except.error CrawlError.crawlAlreadyRunning :=
  (crawl_already_running_rejected ⟨fun _ => CrawlStatus.running⟩ "programming" rfl).1

/-- C5: the mapped search result has a deterministic shape in which
synthesizedAnswer is the only field that mirrors a nullable wire field;
posts is carried over as is, and the two counts default to the empty
list and zero when absent from the wire payload and otherwise carry the
wire value. -/
theorem search_result_shape (wire : SmartSearchWire) :
    (mapSmartSearchResponse wire).synthesizedAnswer = wire.synthesized_answer ∧
    (wire.discovered_galls = none → (mapSmartSearchResponse wire).discoveredGalls = []) ∧
    (∀ gs, wire.discovered_galls = some gs →
      (mapSmartSearchResponse wire).discoveredGalls = gs) ∧
    (wire.posts_crawled = none → (mapSmartSearchResponse wire).postsCrawled = 0) ∧
    (∀ n, wire.posts_crawled = some n → (mapSmartSearchResponse wire).postsCrawled = n) ∧
    (mapSmartSearchResponse wire).posts = wire.posts ∧
    (mapSmartSearchResponse wire).persona = wire.persona ∧
    (mapSmartSearchResponse wire).queryTime = wire.query_time := by
  refine ⟨rfl, fun h => ?_, fun gs h => ?_, fun h => ?_, fun n h => ?_, rfl, rfl, rfl⟩ <;>
    simp [mapSmartSearchResponse, h]

/-- Witness for search_result_shape at a wire payload missing both
optional count fields. -/
theorem search_result_shape_witness :
    (mapSmartSearchResponse
      { posts := [], synthesized_answer := none, persona := "helpful_sunbae",
        query_time := 0, discovered_galls := none, posts_crawled := none }).discoveredGalls
      = [] ∧
    (mapSmartSearchResponse
      { posts := [], synthesized_answer := none, persona := "helpful_sunbae",
        query_time := 0, discovered_galls := none, posts_crawled := none }).postsCrawled
      = 0 :=
  ⟨(search_result_shape _).2.1 rfl, (search_result_shape _).2.2.2.1 rfl⟩

/-- C6: a query that matches nothing yields a normal hook state, not an
error: the data holds empty posts and a null synthesized answer, the
error field stays none, the error banner is hidden, and DCBoard renders
the empty-state view. -/
theorem empty_search_not_error (persona : String) (queryTime : Int)
    (galls : List String) (crawled : Int) :
    searchFinish (SearchOutcome.restOk (noMatchWire persona queryTime galls crawled)) =
      { data := some
          { posts := [], synthesizedAnswer := none, persona := persona,
            queryTime := queryTime, discoveredGalls := galls, postsCrawled := crawled },
        isLoading := false, error := none } ∧
    errorBannerShown
      (searchFinish (SearchOutcome.restOk (noMatchWire persona queryTime galls crawled)))
      = false ∧
    boardView [] false = BoardView.empty :=
  ⟨rfl, rfl, rfl⟩

/-! Part 7: the Python sidecar manager from
apps/electron/python-bridge/sidecar.ts. The module-level pythonProcess
variable becomes an explicit state record and the spawn, stop, close and
error callbacks become events of a step function. -/

/-- Log line emitted at sidecar.ts line 28 when a start request finds a
sidecar already tracked. -/
def alreadyRunningLog : String := "[sidecar] Python backend already running."

/-- Log line emitted at sidecar.ts line 35 before spawning. -/
def startingLog : String := "[sidecar] Starting python backend"

/-- Log line emitted by the close handler, sidecar.ts line 51. -/
def exitedLog : String := "[sidecar] Python backend exited"

/-- Error line emitted by the error handler, sidecar.ts line 56. -/
def spawnFailedLog : String := "[sidecar] Failed to start Python"

/-- State of the sidecar module: the tracked child process (by a pid
drawn from nextPid), how many processes were ever spawned, and the lines
pushed to the two callbacks. -/
structure SidecarSt where
  pythonProcess : Option Nat
  nextPid : Nat
  spawnCount : Nat
  logs : List String
  errors : List String
deriving DecidableEq

/-- Module state before any call, sidecar.ts line 5. -/
def initialSidecarSt : SidecarSt :=
  { pythonProcess := none, nextPid := 0, spawnCount := 0, logs := [], errors := [] }

/-- Events acting on the sidecar module: a startPythonSidecar call, a
stopPythonSidecar call, the child close event and the child spawn-error
event. -/
inductive SidecarEvent where
  | start
  | stop
  | procClose
  | procError
deriving DecidableEq

/-- One step of the sidecar module, sidecar.ts lines 23 to 72. A start
request with a tracked process only logs; otherwise it spawns and tracks
one process. Stop, close and error all clear the tracked process. -/
def sidecarStep (st : SidecarSt) : SidecarEvent → SidecarSt
  | SidecarEvent.start =>
    match st.pythonProcess with
    | some _ => { st with logs := st.logs ++ [alreadyRunningLog] }
    | none =>
        { st with pythonProcess := some st.nextPid, nextPid := st.nextPid + 1,
                  spawnCount := st.spawnCount + 1, logs := st.logs ++ [startingLog] }
  | SidecarEvent.stop =>
    match st.pythonProcess with
    | some _ => { st with pythonProcess := none }
    | none => st
  | SidecarEvent.procClose =>
      { st with pythonProcess := none, logs := st.logs ++ [exitedLog] }
  | SidecarEvent.procError =>
      { st with pythonProcess := none, errors := st.errors ++ [spawnFailedLog] }

/-- isSidecarRunning, sidecar.ts lines 70 to 72. -/
def isSidecarRunning (st : SidecarSt) : Bool := st.pythonProcess.isSome

/-- Shape of the status entry point response declared in the preload
surface (main.tsx line 57): a record with exactly one boolean field. -/
structure StatusResponse where
  sidecarRunning : Bool
deriving DecidableEq

/-- Modelled from the spec: the status entry point returning the record
with the sidecarRunning boolean (section 6); the ipc-handlers module that
wires it is not under src, while isSidecarRunning itself is. -/
def getStatus (st : SidecarSt) : StatusResponse :=
  { sidecarRunning := isSidecarRunning st }

/-- Sidecar module state after a sequence of events from startup. -/
def sidecarRun (events : List SidecarEvent) : SidecarSt :=
  events.foldl sidecarStep initialSidecarSt

/-- Whether the sidecar is tracked after a step depends only on the
event: a start leaves a process tracked, everything else clears it. -/
lemma isSidecarRunning_step (st : SidecarSt) (e : SidecarEvent) :
    isSidecarRunning (sidecarStep st e) = decide (e = SidecarEvent.start) := by
  cases e <;> cases hp : st.pythonProcess <;>
    simp [sidecarStep, isSidecarRunning, hp]

/-- Running status after a nonempty event sequence is decided by the
last event. -/
lemma isSidecarRunning_concat (evs : List SidecarEvent) (e : SidecarEvent) :
    isSidecarRunning (sidecarRun (evs ++ [e])) = decide (e = SidecarEvent.start) := by
  unfold sidecarRun
  rw [List.foldl_append]
  exact isSidecarRunning_step _ e

/-- Last elements of equal concatenations agree. -/
lemma concat_last_eq {α : Type} (l1 l2 : List α) (a b : α)
    (h : l1 ++ [a] = l2 ++ [b]) : a = b := by
  have h2 := congrArg List.getLast? h
  simpa using h2

/-! Theorems for claims C7 and C9. -/

/-- C7: the status entry point returns the record with exactly the
sidecarRunning boolean, and that boolean is true after an event history
if and only if a start happened and no stop, process exit or spawn error
happened since (every later event is another start request). -/
theorem sidecar_status_iff (events : List SidecarEvent) :
    (getStatus (sidecarRun events)).sidecarRunning = true ↔
      ∃ pre post, events = pre ++ SidecarEvent.start :: post ∧
        ∀ e ∈ post, e = SidecarEvent.start := by
  show isSidecarRunning (sidecarRun events) = true ↔ _
  rcases List.eq_nil_or_concat events with rfl | ⟨init, e, rfl⟩
  · constructor
    · intro h
      exact absurd h (by simp [sidecarRun, initialSidecarSt, isSidecarRunning])
    · rintro ⟨pre, post, h, -⟩
      exact absurd h (by simp)
  · rw [List.concat_eq_append, isSidecarRunning_concat]
    constructor
    · intro h
      have he : e = SidecarEvent.start := by simpa using h
      exact ⟨init, [], by rw [he], by simp⟩
    · rintro ⟨pre, post, h, hall⟩
      rcases List.eq_nil_or_concat post with rfl | ⟨q, e2, rfl⟩
      · have : e = SidecarEvent.start := concat_last_eq init pre e SidecarEvent.start h
        simp [this]
      · rw [List.concat_eq_append] at h hall
        have h2 : init ++ [e] = (pre ++ SidecarEvent.start :: q) ++ [e2] := by
          simpa using h
        have he2 : e2 = SidecarEvent.start := hall e2 (by simp)
        have : e = e2 := concat_last_eq init (pre ++ SidecarEvent.start :: q) e e2 h2
        simp [this, he2]

/-- Witness for sidecar_status_iff at the single-start history. -/
theorem sidecar_status_iff_witness :
    (getStatus (sidecarRun [SidecarEvent.start])).sidecarRunning = true :=
  (sidecar_status_iff [SidecarEvent.start]).mpr ⟨[], [], rfl, by simp⟩

/-- C9: at most one sidecar process is tracked: a start request while a
process is tracked only appends the already-running log line, spawning
nothing and leaving the tracked process untouched, and after a stop, a
process exit or a spawn error the sidecar reports not running. -/
theorem sidecar_single_process (st : SidecarSt) :
    (isSidecarRunning st = true →
      sidecarStep st SidecarEvent.start = { st with logs := st.logs ++ [alreadyRunningLog] } ∧
      (sidecarStep st SidecarEvent.start).spawnCount = st.spawnCount ∧
      (sidecarStep st SidecarEvent.start).pythonProcess = st.pythonProcess) ∧
    isSidecarRunning (sidecarStep st SidecarEvent.stop) = false ∧
    isSidecarRunning (sidecarStep st SidecarEvent.procClose) = false ∧
    isSidecarRunning (sidecarStep st SidecarEvent.procError) = false := by
  cases hp : st.pythonProcess <;>
    simp [sidecarStep, isSidecarRunning, hp]

/-- Witness for sidecar_single_process at a concrete tracked state. -/
theorem sidecar_single_process_witness :
    sidecarStep
        { pythonProcess := some 0, nextPid := 1, spawnCount := 1, logs := [], errors := [] }
        SidecarEvent.start =
      { pythonProcess := some 0, nextPid := 1, spawnCount := 1,
        logs := [alreadyRunningLog], errors := [] } :=
  ((sidecar_single_process
    { pythonProcess := some 0, nextPid := 1, spawnCount := 1, logs := [], errors := [] }).1
    rfl).1

/-! Part 8: spec-modelled crawl politeness gate. The crawler lives in
the Python backend behind the REST boundary and is not under src; the
spec (sections 4.2, 5 and 6) and the repository README describe a single
serializing rate limiter shared by all crawl operations, with a default
minimum interval of one second between outbound requests to the same
origin. -/

/-- Default politeness interval in milliseconds, spec section 6. -/
def politeDelayMs : Int := 1000

/-- Modelled from the spec: the shared limiter state, the last issue
time recorded per origin. The backend crawler code is not under src. -/
structure RateLimiterSt where
  lastIssue : String → Option Int

/-- Limiter state at startup: no origin has been contacted. -/
def initLimiter : RateLimiterSt := ⟨fun _ => none⟩

/-- Modelled from the spec: the earliest time the limiter lets a request
to an origin go out, given the moment the request became ready: at least
interval after the previous request to the same origin. The backend
crawler code is not under src. -/
def nextIssueTime (interval : Int) (st : RateLimiterSt) (origin : String)
    (readyAt : Int) : Int :=
  match st.lastIssue origin with
  | none => readyAt
  | some last => max readyAt (last + interval)

/-- Record an issued request in the limiter state. -/
def recordIssue (st : RateLimiterSt) (origin : String) (t : Int) : RateLimiterSt :=
  ⟨fun o => if o = origin then some t else st.lastIssue o⟩

/-- Issue times the shared limiter assigns to an interleaved sequence of
requests from all concurrent crawl operations; each request carries its
origin and the moment it became ready. -/
def goIssue (interval : Int) : RateLimiterSt → List (String × Int) → List (String × Int)
  | _, [] => []
  | st, (o, r) :: rest =>
      (o, nextIssueTime interval st o r) ::
        goIssue interval (recordIssue st o (nextIssueTime interval st o r)) rest

/-- Issue times starting from the startup limiter state. -/
def issueTimes (interval : Int) (reqs : List (String × Int)) : List (String × Int) :=
  goIssue interval initLimiter reqs

/-- Issue times of the requests to one origin, in issue order. -/
def timesFor (origin : String) (out : List (String × Int)) : List Int :=
  (out.filter (fun p => p.1 == origin)).map Prod.snd

/-- Separation relation: b happens at least interval after a. -/
def spacedBy (interval : Int) (a b : Int) : Prop := a + interval ≤ b

lemma timesFor_cons (origin o : String) (t : Int) (l : List (String × Int)) :
    timesFor origin ((o, t) :: l) =
      if o = origin then t :: timesFor origin l else timesFor origin l := by
  simp only [timesFor, List.filter_cons]
  by_cases h : o = origin <;> simp [h]

lemma recordIssue_lastIssue_same (st : RateLimiterSt) (o : String) (t : Int) :
    (recordIssue st o t).lastIssue o = some t := by
  simp [recordIssue]

lemma recordIssue_lastIssue_other (st : RateLimiterSt) (o o2 : String) (t : Int)
    (h : o2 ≠ o) : (recordIssue st o t).lastIssue o2 = st.lastIssue o2 := by
  simp [recordIssue, h]

/-- Core invariant of the limiter: along any request sequence, the issue
times assigned to one origin form a chain spaced by the interval, and a
recorded last issue time precedes the whole chain by the interval. -/
lemma goIssue_chain (interval : Int) (origin : String) :
    ∀ (reqs : List (String × Int)) (st : RateLimiterSt),
      (∀ t0, st.lastIssue origin = some t0 →
        List.Chain (spacedBy interval) t0 (timesFor origin (goIssue interval st reqs))) ∧
      (st.lastIssue origin = none →
        List.Chain' (spacedBy interval) (timesFor origin (goIssue interval st reqs))) := by
  intro reqs
  induction reqs with
  | nil =>
      intro st
      constructor
      · intro t0 _
        simp [goIssue, timesFor]
      · intro _
        simp [goIssue, timesFor]
  | cons hd rest ih =>
      intro st
      obtain ⟨o, r⟩ := hd
      by_cases ho : o = origin
      · subst ho
        rw [show goIssue interval st ((o, r) :: rest) =
              (o, nextIssueTime interval st o r) ::
                goIssue interval (recordIssue st o (nextIssueTime interval st o r)) rest
            from rfl]
        rw [timesFor_cons]
        simp only [if_pos rfl]
        constructor
        · intro t0 h0
          have hstep : spacedBy interval t0 (nextIssueTime interval st o r) := by
            unfold spacedBy nextIssueTime
            rw [h0]
            simp
          exact List.Chain.cons hstep
            ((ih (recordIssue st o (nextIssueTime interval st o r))).1
              (nextIssueTime interval st o r) (recordIssue_lastIssue_same _ _ _))
        · intro _
          show List.Chain (spacedBy interval) (nextIssueTime interval st o r) _
          exact (ih (recordIssue st o (nextIssueTime interval st o r))).1
            (nextIssueTime interval st o r) (recordIssue_lastIssue_same _ _ _)
      · rw [show goIssue interval st ((o, r) :: rest) =
              (o, nextIssueTime interval st o r) ::
                goIssue interval (recordIssue st o (nextIssueTime interval st o r)) rest
            from rfl]
        rw [timesFor_cons]
        simp only [if_neg ho]
        constructor
        · intro t0 h0
          refine (ih (recordIssue st o (nextIssueTime interval st o r))).1 t0 ?_
          rw [recordIssue_lastIssue_other st o origin _ (fun h => ho h.symm)]
          exact h0
        · intro h0
          refine (ih (recordIssue st o (nextIssueTime interval st o r))).2 ?_
          rw [recordIssue_lastIssue_other st o origin _ (fun h => ho h.symm)]
          exact h0

/-- The issue times for one origin form a chain spaced by the interval. -/
lemma issueTimes_chain (interval : Int) (origin : String) (reqs : List (String × Int)) :
    List.Chain' (spacedBy interval) (timesFor origin (issueTimes interval reqs)) :=
  (goIssue_chain interval origin reqs initLimiter).2 rfl

/-! Theorem for claim C8. -/

/-- C8: between any two outbound requests the shared limiter issues to
the same origin there is at least the default one-second politeness
interval, globally across the whole interleaved request sequence of all
concurrent crawl operations: the issue-time list of every origin is
pairwise separated by politeDelayMs. -/
theorem crawl_politeness_interval (reqs : List (String × Int)) (origin : String) :
    List.Pairwise (spacedBy politeDelayMs)
      (timesFor origin (issueTimes politeDelayMs reqs)) := by
  haveI : IsTrans Int (spacedBy politeDelayMs) :=
    ⟨by
      intro a b c h1 h2
      unfold spacedBy politeDelayMs at *
      omega⟩
  exact List.chain'_iff_pairwise.mp (issueTimes_chain politeDelayMs origin reqs)

/-! Part 9: DC date formatting from apps/shared/utils/dateFormatter.ts
(carried in src/unnamed/part_000). Times are integer milliseconds; the
JS Math.floor of a real quotient with a positive divisor is Euclidean
integer division, which is what Int division denotes here. -/

/-- What formatDCDate renders: the just-now string, a relative minutes
or hours form carrying the computed count, or the absolute
locale-formatted date for anything a day old or older. -/
inductive DCDateDisplay where
  | justNow
  | minutesAgo (n : Int)
  | hoursAgo (n : Int)
  | absoluteDate
deriving DecidableEq

/-- formatDCDate from dateFormatter.ts lines 6 to 25, with the two
Date objects replaced by their epoch milliseconds. -/
def formatDCDate (nowMs dateMs : Int) : DCDateDisplay :=
  let diffMs := nowMs - dateMs
  let diffMinutes := diffMs / 60000
  let diffHours := diffMs / 3600000
  if diffMinutes < 1 then DCDateDisplay.justNow
  else if diffMinutes < 60 then DCDateDisplay.minutesAgo diffMinutes
  else if diffHours < 24 then DCDateDisplay.hoursAgo diffHours
  else DCDateDisplay.absoluteDate

/-! Theorem for claim C10. -/

/-- C10: every timestamp less than one minute before now, including
every future timestamp (negative difference), renders as the just-now
form; the relative minutes form appears exactly for past differences
from one minute up to an hour, the relative hours form exactly from one
hour up to 24 hours, and anything a day old or older falls through to
the absolute date. -/
theorem formatDCDate_ranges (nowMs dateMs : Int) :
    (nowMs - dateMs < 60000 → formatDCDate nowMs dateMs = DCDateDisplay.justNow) ∧
    (∀ n, formatDCDate nowMs dateMs = DCDateDisplay.minutesAgo n →
      60000 ≤ nowMs - dateMs ∧ nowMs - dateMs < 3600000 ∧ 1 ≤ n ∧ n < 60) ∧
    (∀ n, formatDCDate nowMs dateMs = DCDateDisplay.hoursAgo n →
      3600000 ≤ nowMs - dateMs ∧ nowMs - dateMs < 86400000 ∧ 1 ≤ n ∧ n < 24) ∧
    (86400000 ≤ nowMs - dateMs → formatDCDate nowMs dateMs = DCDateDisplay.absoluteDate) := by
  rw [show formatDCDate nowMs dateMs =
        (if (nowMs - dateMs) / 60000 < 1 then DCDateDisplay.justNow
         else if (nowMs - dateMs) / 60000 < 60 then
           DCDateDisplay.minutesAgo ((nowMs - dateMs) / 60000)
         else if (nowMs - dateMs) / 3600000 < 24 then
           DCDateDisplay.hoursAgo ((nowMs - dateMs) / 3600000)
         else DCDateDisplay.absoluteDate)
      from rfl]
  split_ifs with h1 h2 h3
  · exact ⟨fun _ => rfl, fun n hn => hn.elim,
      fun n hn => hn.elim, fun hd => False.elim (by omega)⟩
  · refine ⟨fun hd => False.elim (by omega), fun n hn => ?_,
      fun n hn => hn.elim, fun hd => False.elim (by omega)⟩
    injection hn with hn2
    omega
  · refine ⟨fun hd => False.elim (by omega), fun n hn => hn.elim,
      fun n hn => ?_, fun hd => False.elim (by omega)⟩
    injection hn with hn2
    omega
  · exact ⟨fun hd => False.elim (by omega), fun n hn => hn.elim,
      fun n hn => hn.elim, fun _ => rfl⟩

/-- Witness for formatDCDate_ranges: a five-minute future timestamp
still renders just-now, and a full day renders the absolute date. -/
theorem formatDCDate_ranges_witness :
    formatDCDate 0 300000 = DCDateDisplay.justNow ∧
    formatDCDate 86400000 0 = DCDateDisplay.absoluteDate :=
  ⟨(formatDCDate_ranges 0 300000).1 (by decide),
   (formatDCDate_ranges 86400000 0).2.2.2 (by decide)⟩

end FingerPrince
